import Mathlib

/-!
Verification of the replica-aware facade (`Replicas`) defined in
`src/clients/replica.rs` of fred.rs, via a shallow embedding.

The facade itself is embedded directly from the source file. Its
collaborators (`RedisClientInner`, `RedisCommand`, `RouterCommand`,
`RedisError`, `Pipeline`, `RedisClient`, `interfaces::send_to_router`, and
the oneshot completion channel) are code of the repository that is not part
of the excerpt, so they are modelled from the specification; every such
definition carries a doc comment starting with `Modelled from the spec:`.
An `Arc<T>` is modelled by the value `T` itself: cloning the `Arc` shares
the same allocation, which the pure model renders as the identity, and two
handles share the same state exactly when their inner values are equal.
-/

/-- Server identity (`types::Server`): host and port. Equality and hashing
are by host plus port; cheaply cloneable. -/
structure Server where
  host : String
  port : Nat
  deriving DecidableEq, Repr

/-- The replica to primary mapping, standing for `HashMap<Server, Server>`
keyed by replica identity with the backing primary as value; modelled as an
association list. -/
abbrev ReplicaMap := List (Server × Server)

/-- Modelled from the spec: the shared server state (the Topology Store)
held behind a read/write lock inside `RedisClientInner`, missing from the
excerpt. `replicas` is the replica to primary table read by
`Replicas::nodes`; the slot table is carried alongside so that frame
statements about the rest of the topology are meaningful. -/
structure ServerState where
  replicas : ReplicaMap
  slotTable : List (Nat × Server)
  deriving DecidableEq, Repr

/-- Modelled from the spec: the shared inner client state
(`RedisClientInner`), missing from the excerpt: the client id (used by the
`Debug` impl in the excerpt) and the shared server state. -/
structure RedisClientInner where
  id : String
  server_state : ServerState
  deriving DecidableEq, Repr

/-- Modelled from the spec: the command envelope (`RedisCommand`), missing
from the excerpt. It wraps a caller-supplied command (kind and arguments)
with routing metadata: the computed hash slot when applicable, the
replica-preference flag `use_replica`, a bounded redirection counter, and
the identity of the one-shot completion handle. -/
structure RedisCommand where
  kind : String
  args : List String
  hash_slot : Option Nat
  use_replica : Bool
  redirections : Nat
  response_handle : Nat
  deriving DecidableEq, Repr

/-- Modelled from the spec: client errors (`RedisError`), missing from the
excerpt. `canceled` is the error that awaiting a oneshot receiver converts a
closed channel into when the sender is dropped without a response. -/
inductive RedisError where
  | canceled : RedisError
  | other : String → RedisError
  deriving DecidableEq, Repr

/-- Modelled from the spec: the control-plane message type sent into the
single inbound Router channel (`RouterCommand`), missing from the excerpt.
`SyncReplicas` carries the identity of a oneshot completion sender. -/
inductive RouterCommand where
  | SyncReplicas (tx : Nat) : RouterCommand
  | otherVariant : RouterCommand
  deriving DecidableEq, Repr

/-- The `Replicas` facade (src/clients/replica.rs, lines 78-82): a thin view
object holding the shared `Arc<RedisClientInner>`. -/
structure Replicas where
  inner : RedisClientInner
  deriving DecidableEq, Repr

/-- Modelled from the spec: the `ClientLike` capability interface, missing
from the excerpt. Any client facade supplies the shared inner state and a
routing-hint hook `change_command` that is applied to every outgoing
command; the default hook leaves the command unchanged. -/
class ClientLike (α : Type) where
  inner : α → RedisClientInner
  change_command : α → RedisCommand → RedisCommand := fun _ c => c

/-- The `change_command` hook of `impl ClientLike for Replicas`
(src/clients/replica.rs, lines 103-107): sets `command.use_replica = true`
and touches nothing else. -/
def Replicas.change_command (_ : Replicas) (c : RedisCommand) : RedisCommand :=
  { c with use_replica := true }

/-- `impl ClientLike for Replicas` (src/clients/replica.rs, lines 97-107). -/
instance : ClientLike Replicas where
  inner r := r.inner
  change_command := Replicas.change_command

/-- Modelled from the spec: the primary-facing `RedisClient`, missing from
the excerpt. It wraps the same kind of shared inner state and keeps the
default (identity) `change_command` hook, so it is not replica-biased. -/
structure RedisClient where
  inner : RedisClientInner
  deriving DecidableEq, Repr

/-- Modelled from the spec: `RedisClient::from(&Arc<RedisClientInner>)`,
missing from the excerpt: clones the `Arc` (identity on the shared value in
this model) and wraps it. -/
def RedisClient.fromInner (inner : RedisClientInner) : RedisClient :=
  RedisClient.mk inner

/-- Modelled from the spec: `impl ClientLike for RedisClient`, missing from
the excerpt; it keeps the default no-op `change_command` hook. -/
instance : ClientLike RedisClient where
  inner c := c.inner

/-- `From<&Arc<RedisClientInner>> for Replicas` (src/clients/replica.rs,
lines 91-95): clones the `Arc` and wraps it. -/
def Replicas.fromInner (inner : RedisClientInner) : Replicas :=
  Replicas.mk inner

/-- The derived `Clone` for `Replicas` (src/clients/replica.rs, line 78):
clones the single `Arc` field, which shares the same inner allocation;
identity on the inner value in this model. -/
def Replicas.clone (r : Replicas) : Replicas :=
  Replicas.mk r.inner

/-- `Replicas::nodes` (src/clients/replica.rs, lines 127-129): read-locks
the shared server state and returns a clone of the replica table. -/
def Replicas.nodes (r : Replicas) : ReplicaMap :=
  r.inner.server_state.replicas

/-- `Replicas::nodes` viewed as a transformer of the shared server state:
the call takes a read lock, clones the replica table, and leaves the shared
state exactly as it was (src/clients/replica.rs, lines 127-129). The first
component is the clone handed to the caller; the second is the shared state
after the call. -/
def Replicas.nodesRun (s : ServerState) : ReplicaMap × ServerState :=
  (s.replicas, s)

/-- Modelled from the spec: `Pipeline<C>`, missing from the excerpt: an
ordered-batch builder wrapping the client facade whose routing hint it
inherits. -/
structure Pipeline (α : Type) where
  client : α

/-- Modelled from the spec: `Pipeline::from(client)`, missing from the
excerpt: wraps the given client facade. -/
def Pipeline.fromClient {α : Type} (c : α) : Pipeline α :=
  Pipeline.mk c

/-- `Replicas::pipeline` (src/clients/replica.rs, lines 132-134):
`Pipeline::from(self.clone())`. -/
def Replicas.pipeline (r : Replicas) : Pipeline Replicas :=
  Pipeline.fromClient r.clone

/-- Modelled from the spec: every command issued through a pipeline is
passed through the `change_command` hook of the wrapped client before it
reaches the Router; this returns the command as the Router receives it. -/
def Pipeline.prepare {α : Type} [ClientLike α] (p : Pipeline α)
    (c : RedisCommand) : RedisCommand :=
  ClientLike.change_command p.client c

/-- `Replicas::client` (src/clients/replica.rs, lines 137-139):
`RedisClient::from(&self.inner)`. -/
def Replicas.client (r : Replicas) : RedisClient :=
  RedisClient.fromInner r.inner

/-- Modelled from the spec: the generic send path shared by all facades,
missing from the excerpt: every command forwarded through a facade has the
`change_command` hook of that facade applied before the command is handed to
the Router channel. Returns the command as the Router receives it. -/
def forwardToRouter {α : Type} [ClientLike α] (client : α)
    (c : RedisCommand) : RedisCommand :=
  ClientLike.change_command client c

/-- `Replicas::sync` (src/clients/replica.rs, lines 144-149), with its
collaborators made explicit. A fresh oneshot channel is created with sender
identity `txId`; `sendToRouter` models `interfaces::send_to_router` (missing
from the excerpt, modelled from the spec) applied to the submitted
`RouterCommand`; `routerResponse` is what the Router delivers on the oneshot
channel, `none` meaning the sender was dropped without a response, which
awaiting the receiver converts into a single canceled error. Returns the
`RouterCommand` submitted to the Router together with the `Result` returned
to the caller. -/
def Replicas.syncModel (txId : Nat)
    (sendToRouter : RouterCommand → Except RedisError Unit)
    (routerResponse : Option (Except RedisError Unit)) :
    RouterCommand × Except RedisError Unit :=
  let cmd := RouterCommand.SyncReplicas txId
  match sendToRouter cmd with
  | Except.error e => (cmd, Except.error e)
  | Except.ok _ =>
    match routerResponse with
    | some r => (cmd, r)
    | none => (cmd, Except.error RedisError.canceled)

/-- A concrete server state for example evaluations. -/
def sampleState : ServerState := ⟨[], []⟩

/-- A concrete shared inner state for example evaluations. -/
def sampleInner : RedisClientInner := ⟨"client-1", sampleState⟩

/-- A concrete `Replicas` handle for example evaluations. -/
def sampleReplicas : Replicas := ⟨sampleInner⟩

/-- A concrete command whose `use_replica` flag is already set. -/
def sampleCommandR : RedisCommand := ⟨"GET", ["foo"], some 100, true, 0, 7⟩

/-- C1: every command forwarded through the `Replicas` facade reaches the
Router with `use_replica = true` — for every command, with no exception by
command kind, since the hook inspects nothing of the command. -/
theorem replicas_marks_every_command (r : Replicas) (c : RedisCommand) :
    (forwardToRouter r c).use_replica = true := rfl

/-- C2: `Replicas::sync` submits a `SyncReplicas` router command carrying the
oneshot completion sender, and whenever the submission succeeds and the
Router delivers a result on that channel, the `Result` returned to the
caller is exactly the delivered value. -/
theorem sync_returns_router_result (txId : Nat)
    (sendToRouter : RouterCommand → Except RedisError Unit)
    (r : Except RedisError Unit)
    (hsend : sendToRouter (RouterCommand.SyncReplicas txId) = Except.ok ()) :
    (Replicas.syncModel txId sendToRouter (some r)).1 =
      RouterCommand.SyncReplicas txId ∧
    (Replicas.syncModel txId sendToRouter (some r)).2 = r := by
  refine ⟨?_, ?_⟩ <;> simp [Replicas.syncModel, hsend]

/-- Witness for C2 at a concrete channel and Router behaviour. -/
theorem sync_returns_router_result_witness :
    (Replicas.syncModel 0 (fun _ => Except.ok ()) (some (Except.ok ()))).1 =
      RouterCommand.SyncReplicas 0 ∧
    (Replicas.syncModel 0 (fun _ => Except.ok ()) (some (Except.ok ()))).2 =
      Except.ok () :=
  sync_returns_router_result 0 (fun _ => Except.ok ()) (Except.ok ()) rfl

/-- C3: `Replicas::nodes` returns a clone of the replica to primary table of
the shared server state at the moment of the call: the value handed to the
caller is exactly the stored table, and the call leaves the state as it
found it. -/
theorem nodes_is_replica_table_snapshot (r : Replicas) :
    r.nodes = r.inner.server_state.replicas ∧
    Replicas.nodesRun r.inner.server_state =
      (r.inner.server_state.replicas, r.inner.server_state) :=
  ⟨rfl, rfl⟩

/-- C4: the `change_command` hook of the `Replicas` facade modifies only the
replica-preference flag: the command kind, arguments, hash slot, redirection
counter and completion handle are all left unchanged. -/
theorem change_command_frame (r : Replicas) (c : RedisCommand) :
    (r.change_command c).kind = c.kind ∧
    (r.change_command c).args = c.args ∧
    (r.change_command c).hash_slot = c.hash_slot ∧
    (r.change_command c).redirections = c.redirections ∧
    (r.change_command c).response_handle = c.response_handle :=
  ⟨rfl, rfl, rfl, rfl, rfl⟩

/-- C5: `Replicas::sync` yields exactly one terminal outcome per invocation:
a failed submission returns that error and the outcome is independent of the
completion channel (it is never awaited); a sender dropped without a
response becomes the single canceled error; and the returned `Result` is
never both a value and an error. -/
theorem sync_single_outcome (txId : Nat)
    (sendToRouter : RouterCommand → Except RedisError Unit)
    (resp : Option (Except RedisError Unit)) :
    (∀ e, sendToRouter (RouterCommand.SyncReplicas txId) = Except.error e →
      (Replicas.syncModel txId sendToRouter resp).2 = Except.error e ∧
      ∀ resp2, (Replicas.syncModel txId sendToRouter resp).2 =
        (Replicas.syncModel txId sendToRouter resp2).2) ∧
    (sendToRouter (RouterCommand.SyncReplicas txId) = Except.ok () →
      resp = none →
      (Replicas.syncModel txId sendToRouter resp).2 =
        Except.error RedisError.canceled) ∧
    ¬((∃ v, (Replicas.syncModel txId sendToRouter resp).2 = Except.ok v) ∧
      ∃ e, (Replicas.syncModel txId sendToRouter resp).2 = Except.error e) := by
  refine ⟨?_, ?_, ?_⟩
  · intro e he
    refine ⟨by simp [Replicas.syncModel, he], ?_⟩
    intro resp2
    simp [Replicas.syncModel, he]
  · intro hok hnone
    subst hnone
    simp [Replicas.syncModel, hok]
  · rintro ⟨⟨v, hv⟩, e, he⟩
    rw [hv] at he
    exact Except.noConfusion he

/-- Witness for C5 at a concrete channel and Router behaviour: the sender is
dropped without a response and the caller gets the single canceled error. -/
theorem sync_single_outcome_witness :
    (Replicas.syncModel 0 (fun _ => Except.ok ()) none).2 =
      Except.error RedisError.canceled :=
  (sync_single_outcome 0 (fun _ => Except.ok ()) none).2.1 rfl rfl

/-- C6: `Replicas::client` returns a primary-facing client wrapping the very
same shared inner state, so both views observe one Topology Store and one
Connection Set; the returned client keeps the default identity
`change_command` hook, so it is not replica-biased. -/
theorem client_shares_inner (r : Replicas) :
    (r.client).inner = r.inner ∧
    ∀ c : RedisCommand, ClientLike.change_command r.client c = c :=
  ⟨rfl, fun _ => rfl⟩

/-- C7: `Replicas::pipeline` wraps a clone of the facade (sharing the same
inner state), so every command issued through that pipeline passes through
the same `change_command` hook and reaches the Router marked
replica-preferred. -/
theorem pipeline_marks_replica (r : Replicas) (c : RedisCommand) :
    (r.pipeline).client = r ∧
    (r.pipeline).client.inner = r.inner ∧
    ((r.pipeline).prepare c).use_replica = true :=
  ⟨rfl, rfl, rfl⟩

/-- C8: reading the replica table never mutates shared router state: the
shared state after the call is exactly the state before it, the caller only
receives a clone, and whatever mutation the caller applies to that clone, a
later read still returns the original stored table. -/
theorem nodes_never_mutates (s : ServerState) :
    (Replicas.nodesRun s).2 = s ∧
    (Replicas.nodesRun s).1 = s.replicas ∧
    ∀ f : ReplicaMap → ReplicaMap,
      (Replicas.nodesRun ((Replicas.nodesRun s).2)).1 = s.replicas :=
  ⟨rfl, rfl, fun _ => rfl⟩

/-- C9: the `change_command` hook of the `Replicas` facade is idempotent:
applying it twice equals applying it once, and on a command already marked
`use_replica = true` it is the identity. -/
theorem change_command_idempotent (r : Replicas) (c : RedisCommand) :
    r.change_command (r.change_command c) = r.change_command c ∧
    (c.use_replica = true → r.change_command c = c) := by
  refine ⟨rfl, ?_⟩
  intro h
  cases c
  simp_all [Replicas.change_command]

/-- Witness for C9 at a concrete command already marked replica-preferred. -/
theorem change_command_idempotent_witness :
    sampleCommandR.use_replica = true ∧
    Replicas.change_command sampleReplicas sampleCommandR = sampleCommandR :=
  ⟨rfl, (change_command_idempotent sampleReplicas sampleCommandR).2 rfl⟩

/-- C10: constructing a `Replicas` handle via `From` or duplicating one via
the derived `Clone` never creates new router state: both operations share
the same inner state, and `nodes` on any handle so obtained reads the same
underlying replica table. -/
theorem handles_share_state (inner : RedisClientInner) (r : Replicas) :
    (Replicas.fromInner inner).inner = inner ∧
    r.clone.inner = r.inner ∧
    (Replicas.fromInner inner).nodes = inner.server_state.replicas ∧
    r.clone.nodes = r.nodes ∧
    (Replicas.fromInner inner).clone.nodes = (Replicas.fromInner inner).nodes :=
  ⟨rfl, rfl, rfl, rfl, rfl⟩
